import Mathlib

/-!
Verification development for the Miudinho.AI RAG pipeline (`app.py`).

The pipeline's pure logic is embedded shallowly:

* external services (the embedding call `genai.embed_content`, the FAISS
  `index.search`, the generative `GENERATIVE_MODEL.generate_content`) are
  parameters of the embedded functions; a fallible call is a function into
  `Except`, whose `.error` branch models a raised Python exception;
* Python strings are Lean `String`s; `str.strip` and `str.split` are
  re-implemented below on `List Char` (`pyStripCore`, `pySplitNlCore`) so
  that they are amenable to proof;
* Python's `set` of slot indices is modelled as `List.dedup` of the
  flattened slot list — iteration order of a Python `set` is unspecified,
  and no property below depends on the order;
* Python list indexing `metadata[idx]` (which may raise `IndexError`, and
  wraps negative indices) is `pyGet`.
-/

/-- A corpus fragment: the `metadata` entries are dicts with keys
`text` and `source_file` (see `gerar_resposta_com_busca`). -/
structure Chunk where
  text : String
  source_file : String
deriving DecidableEq, Repr

/-- Errors that propagate out of `buscar_chunks_relevantes`:
a raised exception of the embedding call, or an `IndexError` from
`metadata[idx]`. -/
inductive RetErr where
  | embedError (msg : String)
  | indexError
deriving DecidableEq, Repr

deriving instance DecidableEq for Except

/-- Python list indexing `xs[i]` for an `int` index: negative indices wrap
by the list length, out-of-range is `none` (an `IndexError`). -/
def pyGet {α : Type} (xs : List α) (i : Int) : Option α :=
  let j : Int := if 0 ≤ i then i else i + xs.length
  if 0 ≤ j then xs[j.toNat]? else none

/-- Python whitespace test used by `str.strip` (restricted to the ASCII
whitespace that `Char.isWhitespace` covers). -/
def pyIsSpace (c : Char) : Bool := c.isWhitespace

/-- Python `str.strip()` on the character list: drop whitespace from both
ends. -/
def pyStripCore (s : List Char) : List Char :=
  ((s.dropWhile pyIsSpace).reverse.dropWhile pyIsSpace).reverse

/-- Python `str.strip()`. -/
def pyStrip (s : String) : String := String.mk (pyStripCore s.data)

/-- Python `str.split('\n')` on the character list: split at every newline,
keeping empty pieces (`''.split('\n') == ['']`). -/
def pySplitNlCore : List Char → List (List Char)
  | [] => [[]]
  | c :: cs =>
    if c = '\n' then [] :: pySplitNlCore cs
    else
      match pySplitNlCore cs with
      | [] => [[c]]
      | h :: t => (c :: h) :: t

/-- The `[metadata[idx] for idx in unique_indices]` comprehension: resolve
every slot through `pyGet`, propagating the first `IndexError`. -/
def resolveSlots (metadata : List Chunk) : List Int → Except RetErr (List Chunk)
  | [] => .ok []
  | idx :: rest =>
    match pyGet metadata idx with
    | some c =>
      match resolveSlots metadata rest with
      | .ok cs => .ok (c :: cs)
      | .error e => .error e
    | none => .error .indexError

/-- Steps 2–3 of `buscar_chunks_relevantes`: pool the slot lists returned
by the batched search into a single duplicate-free collection, first
discarding the FAISS sentinel `-1` (the nested `for` loops filling the
`unique_indices` set). A Python `set` has no specified iteration order, so
the set is modelled by `List.dedup` of the flattened slots. -/
def uniqueSlots (indices : List (List Int)) : List Int :=
  (indices.flatten.filter (fun idx => idx ≠ -1)).dedup

/-- Embedding of `buscar_chunks_relevantes(queries, index, metadata, k)`:
embed the queries in one batched call, search the index once for all
query vectors, pool the returned slots into a set discarding the FAISS
sentinel `-1`, and resolve each unique slot to its metadata entry.
`embedF` stands for `genai.embed_content` (its raised exceptions
propagate), `searchF` for `index.search`. -/
def buscar_chunks_relevantes {Vec : Type}
    (embedF : List String → Except String (List Vec))
    (searchF : List Vec → Nat → List (List Int))
    (queries : List String) (metadata : List Chunk) (k : Nat) :
    Except RetErr (List Chunk) :=
  match embedF queries with
  | .error e => .error (.embedError e)
  | .ok query_vectors =>
    resolveSlots metadata (uniqueSlots (searchF query_vectors k))

/-- The apostrophe character (written by code point to keep the file free
of raw quote characters). -/
def apos : Char := Char.ofNat 39

/-- The Python triple-quote delimiter `chr(39) * 3` used around each
chunk's text in the grounding context. -/
def tripleQuote : String := String.mk [apos, apos, apos]

/-- Leading text of the query-expansion prompt, up to the opening quote
around the original question (the f-string of
`expand_query_with_gemini`). -/
def expPromptIntro : String :=
  "\n        Você é um assistente de busca especialista em teologia e estudos bíblicos.\n        Gere 4 variações da pergunta do usuário para melhorar a busca em uma base de dados de transcrições de vídeos.\n        Concentre-se em sinônimos, conceitos relacionados e formas alternativas de expressar o mesmo significado.\n        \n        Pergunta Original: \""

/-- Trailing text of the query-expansion prompt, after the closing quote
around the original question. -/
def expPromptOutro : String :=
  "\"\n\n        Retorne APENAS as perguntas geradas. Liste cada pergunta em uma nova linha. NÃO use marcadores, números ou qualquer outra formatação.\n        "

/-- The expansion prompt with the user's question interpolated. -/
def expansion_prompt (user_query : String) : String :=
  expPromptIntro ++ user_query ++ expPromptOutro

/-- The parsing step of `expand_query_with_gemini`:
`[line.strip() for line in response.text.strip().split(chr(10)) if line.strip()]`. -/
def parse_expansion_core (raw : List Char) : List (List Char) :=
  ((pySplitNlCore (pyStripCore raw)).map pyStripCore).filter (fun l => l ≠ [])

/-- Embedding of `expand_query_with_gemini(user_query)`: ask the
generative model (`generateF`, standing for
`GENERATIVE_MODEL.generate_content`) for paraphrases, parse its text into
lines, and put the original question first (`insert(0, user_query)`); on
any exception return just the original question. -/
def expand_query_with_gemini (generateF : String → Except String String)
    (user_query : String) : List String :=
  match generateF (expansion_prompt user_query) with
  | .ok raw => user_query :: (parse_expansion_core raw.data).map String.mk
  | .error _ => [user_query]

/-- Modelled from the spec's words for the parsing policy (for
comparison with `parse_expansion_core`): split the model's raw text on
line breaks, trim whitespace from each line, discard empty lines —
without the initial whole-text strip the code performs. -/
def parse_expansion_spec_core (raw : List Char) : List (List Char) :=
  ((pySplitNlCore raw).map pyStripCore).filter (fun l => l ≠ [])

/-- One chunk's block in the grounding context: the two
`contexto_formatado +=` lines of `gerar_resposta_com_busca` for a chunk. -/
def chunk_block (chunk : Chunk) : String :=
  "\nDOCUMENTO: " ++ chunk.source_file ++ "\n" ++ "CONTEÚDO:\n" ++ tripleQuote
    ++ chunk.text ++ tripleQuote ++ "\n"

/-- The `for chunk in chunks_relevantes` accumulation of blocks. -/
def chunkBlocks : List Chunk → String
  | [] => ""
  | c :: rest => chunk_block c ++ chunkBlocks rest

/-- Header line of the grounding context. -/
def ctxHeader : String := "\n\n--- DOCUMENTOS RELEVANTES PARA CONSULTA ---\n"

/-- Footer line of the grounding context. -/
def ctxFooter : String := "\n--- FIM DOS DOCUMENTOS RELEVANTES ---\n"

/-- The `contexto_formatado` string of `gerar_resposta_com_busca`. -/
def contexto_formatado (chunks : List Chunk) : String :=
  ctxHeader ++ chunkBlocks chunks ++ ctxFooter

/-- Leading text of the synthesis prompt, up to the opening quote around
the user's question. -/
def synthPromptIntro : String :=
  "\n    Você é um assistente teológico especialista. Sua tarefa é responder à pergunta do usuário de forma detalhada e estruturada, utilizando EXCLUSIVAMENTE os trechos de texto fornecidos.\n\n    **Instruções Cruciais:**\n    1.  Sintetize uma resposta completa e coesa.\n    2.  Ao final de CADA frase que utilize informação de um documento, você DEVE citar o nome do arquivo correspondente usando o formato `[nome do arquivo.txt]`.\n    3.  Se o conteúdo não for suficiente, diga \"Com base nos trechos fornecidos, não tenho informação suficiente para responder a essa pergunta.\".\n    4.  Não crie uma seção de \"Referências\" no final. A citação deve estar no corpo do texto.\n\n    **PERGUNTA DO USUÁRIO:**\n    \""

/-- Middle text of the synthesis prompt, between the question and the
grounding context. -/
def synthPromptMid : String :=
  "\"\n\n    **DOCUMENTOS PARA CONSULTA:**\n    "

/-- Trailing text of the synthesis prompt. -/
def synthPromptOutro : String :=
  "\n\n    Agora, construa sua resposta seguindo todas as instruções.\n    "

/-- The full synthesis prompt of `gerar_resposta_com_busca` with the
question and the formatted context interpolated. -/
def build_prompt (query contexto : String) : String :=
  synthPromptIntro ++ query ++ synthPromptMid ++ contexto ++ synthPromptOutro

/-- Embedding of `gerar_resposta_com_busca(query, chunks_relevantes)`:
build the grounding prompt, call the generative model, return its text
stripped; on any exception return the error message string instead. -/
def gerar_resposta_com_busca (generateF : String → Except String String)
    (query : String) (chunks_relevantes : List Chunk) : String :=
  match generateF (build_prompt query (contexto_formatado chunks_relevantes)) with
  | .ok t => pyStrip t
  | .error e => "Ocorreu um erro ao gerar a resposta: " ++ e

/-- Scanner for citation markers: a marker is the text between a `[` and
the next `]`. The first argument is `none` outside a bracket and
`some acc` (reversed accumulator) inside one; an unclosed bracket yields
no marker. -/
def markersAux : Option (List Char) → List Char → List String
  | _, [] => []
  | none, c :: cs =>
    if c = '[' then markersAux (some []) cs else markersAux none cs
  | some acc, c :: cs =>
    if c = ']' then String.mk acc.reverse :: markersAux none cs
    else markersAux (some (c :: acc)) cs

/-- All citation markers `[...]` appearing in a string, in order. -/
def citationMarkers (s : String) : List String := markersAux none s.data

/-- What the tab-1 search handler renders: either a `st.warning` with a
message, or the synthesized answer shown with `st.markdown`. -/
inductive TabOutcome where
  | warning (msg : String)
  | answered (resposta : String)
deriving DecidableEq, Repr

/-- The `K_VALUE` constant of the tab-1 handler. -/
def K_VALUE : Nat := 15

/-- Embedding of the tab-1 "Buscar Resposta" handler: on an empty query
warn; otherwise expand the question, retrieve chunks with `k = K_VALUE`,
warn when nothing was found, and only otherwise synthesize an answer.
An exception escaping `buscar_chunks_relevantes` propagates (`.error`). -/
def tab1_search_handler {Vec : Type}
    (expandGenF answerGenF : String → Except String String)
    (embedF : List String → Except String (List Vec))
    (searchF : List Vec → Nat → List (List Int))
    (metadata : List Chunk) (user_query : String) : Except RetErr TabOutcome :=
  if user_query = "" then .ok (.warning "Por favor, digite uma pergunta.")
  else
    match buscar_chunks_relevantes embedF searchF
        (expand_query_with_gemini expandGenF user_query) metadata K_VALUE with
    | .error e => .error e
    | .ok chunks_relevantes =>
      if chunks_relevantes = [] then
        .ok (.warning "Não foram encontrados trechos relevantes para a sua pergunta.")
      else
        .ok (.answered (gerar_resposta_com_busca answerGenF user_query chunks_relevantes))

/-! Concrete fixtures used by the witness theorems. -/

/-- Fixture embedding service: one unit vector per input text. -/
def wEmbedF : List String → Except String (List Unit) :=
  fun qs => .ok (qs.map fun _ => ())

/-- Fixture index search: two slot rows with overlap and sentinels. -/
def wSearchF : List Unit → Nat → List (List Int) :=
  fun _ _ => [[0, 1, -1], [1, 0, -1]]

/-- Fixture index search in which no query has any valid neighbor. -/
def wSearchFAllMiss : List Unit → Nat → List (List Int) :=
  fun _ _ => [[-1, -1], [-1, -1]]

/-- Fixture chunk store. -/
def wMetadata : List Chunk := [⟨"texto zero", "a.txt"⟩, ⟨"texto um", "b.txt"⟩]

/-- Fixture embedding service that raises a transport error. -/
def wEmbedFail : List String → Except String (List Unit) :=
  fun _ => .error "transporte"

/-- Fixture index search with one single-slot row. -/
def wSearchFOne : List Unit → Nat → List (List Int) :=
  fun _ _ => [[0]]

/-- Apply `g` to the last element of a list (used to describe how
splitting on newlines behaves when one more character is appended). -/
def mapLast {α : Type} (g : α → α) : List α → List α
  | [] => []
  | [x] => [g x]
  | x :: y :: xs => x :: mapLast g (y :: xs)

/-- The string `s` has `piece` as a contiguous factor. -/
def ContainsPiece (s piece : String) : Prop :=
  ∃ a b : String, s = a ++ (piece ++ b)

/-! Helper lemmas about `resolveSlots` and `pyGet`. -/

theorem pyGet_nonneg {α : Type} (xs : List α) (i : Int) (h : 0 ≤ i) :
    pyGet xs i = xs[i.toNat]? := by
  simp [pyGet, h]

theorem resolveSlots_forall2 (metadata : List Chunk) :
    ∀ (l : List Int) (cs : List Chunk), resolveSlots metadata l = .ok cs →
      List.Forall₂ (fun i c => pyGet metadata i = some c) l cs := by
  intro l
  induction l with
  | nil =>
    intro cs h
    simp only [resolveSlots] at h
    cases h
    exact List.Forall₂.nil
  | cons i rest ih =>
    intro cs h
    simp only [resolveSlots] at h
    cases hg : pyGet metadata i with
    | none => rw [hg] at h; cases h
    | some c =>
      rw [hg] at h
      cases hr : resolveSlots metadata rest with
      | error e => rw [hr] at h; cases h
      | ok cs2 =>
        rw [hr] at h
        cases h
        exact List.Forall₂.cons hg (ih cs2 hr)

theorem forall2_exists_left {α β : Type} {R : α → β → Prop} {l : List α} {cs : List β}
    (h : List.Forall₂ R l cs) : ∀ c ∈ cs, ∃ i ∈ l, R i c := by
  induction h with
  | nil => intro c hc; cases hc
  | cons hR hrest ih =>
    intro c hc
    rcases List.mem_cons.mp hc with rfl | hc2
    · exact ⟨_, List.mem_cons_self _ _, hR⟩
    · obtain ⟨i, hi, hRi⟩ := ih c hc2
      exact ⟨i, List.mem_cons_of_mem _ hi, hRi⟩

theorem resolveSlots_nodup (metadata : List Chunk) (hmeta : metadata.Nodup) :
    ∀ (l : List Int) (cs : List Chunk), l.Nodup → (∀ i ∈ l, 0 ≤ i) →
      resolveSlots metadata l = .ok cs → cs.Nodup := by
  intro l
  induction l with
  | nil =>
    intro cs _ _ h
    simp only [resolveSlots] at h
    cases h
    exact List.nodup_nil
  | cons i rest ih =>
    intro cs hnd hpos h
    simp only [resolveSlots] at h
    cases hg : pyGet metadata i with
    | none => rw [hg] at h; cases h
    | some c =>
      rw [hg] at h
      cases hr : resolveSlots metadata rest with
      | error e => rw [hr] at h; cases h
      | ok cs2 =>
        rw [hr] at h
        cases h
        have hnd' := List.nodup_cons.mp hnd
        refine List.nodup_cons.mpr ⟨?_, ih cs2 hnd'.2
          (fun j hj => hpos j (List.mem_cons_of_mem _ hj)) hr⟩
        intro hc
        obtain ⟨j, hj, hRj⟩ :=
          forall2_exists_left (resolveSlots_forall2 metadata rest cs2 hr) c hc
        have hi0 : 0 ≤ i := hpos i (List.mem_cons_self _ _)
        have hj0 : 0 ≤ j := hpos j (List.mem_cons_of_mem _ hj)
        rw [pyGet_nonneg _ _ hi0] at hg
        rw [pyGet_nonneg _ _ hj0] at hRj
        have hij : i.toNat = j.toNat := by
          by_contra hne
          have hlt : i.toNat < metadata.length := by
            by_contra hge
            rw [List.getElem?_eq_none (Nat.le_of_not_lt hge)] at hg
            cases hg
          exact hne (List.getElem?_inj hlt hmeta (hg.trans hRj.symm))
        have : i = j := by
          have hi' := Int.toNat_of_nonneg hi0
          have hj' := Int.toNat_of_nonneg hj0
          omega
        exact hnd'.1 (this ▸ hj)

/-! Claim theorems. -/

/-- C1: for every positive `k` and non-empty query list, the Retriever's
output contains no duplicate Chunk: the pooled slot list is duplicate-free,
it holds exactly the non-sentinel slots returned by the batched search
across all queries, and the output is the slot-by-slot resolution of that
deduplicated union (so a slot returned for several queries contributes
exactly one Chunk; and when the chunk store itself has no duplicate
entries, the returned Chunks are pairwise distinct). -/
theorem buscar_dedup_exact {Vec : Type}
    (embedF : List String → Except String (List Vec))
    (searchF : List Vec → Nat → List (List Int))
    (queries : List String) (metadata : List Chunk) (k : Nat)
    (vecs : List Vec) (chunks : List Chunk)
    (hemb : embedF queries = .ok vecs)
    (hres : buscar_chunks_relevantes embedF searchF queries metadata k = .ok chunks) :
    (uniqueSlots (searchF vecs k)).Nodup ∧
    (∀ i : Int, i ∈ uniqueSlots (searchF vecs k) ↔
      i ∈ (searchF vecs k).flatten ∧ i ≠ -1) ∧
    List.Forall₂ (fun i c => pyGet metadata i = some c)
      (uniqueSlots (searchF vecs k)) chunks ∧
    (metadata.Nodup → (∀ i ∈ (searchF vecs k).flatten, 0 ≤ i) → chunks.Nodup) := by
  have hres2 : resolveSlots metadata (uniqueSlots (searchF vecs k)) = .ok chunks := by
    unfold buscar_chunks_relevantes at hres
    rw [hemb] at hres
    exact hres
  refine ⟨List.nodup_dedup _, ?_, resolveSlots_forall2 _ _ _ hres2, ?_⟩
  · intro i
    simp only [uniqueSlots, List.mem_dedup, List.mem_filter, List.mem_flatten,
      decide_not, Bool.not_eq_eq_eq_not, Bool.not_true, decide_eq_false_iff_not]
  · intro hmeta hpos
    refine resolveSlots_nodup metadata hmeta _ chunks (List.nodup_dedup _) ?_ hres2
    intro i hi
    have hi2 := List.mem_filter.mp (List.mem_dedup.mp hi)
    exact hpos i hi2.1

/-- Witness for C1 on the two-query fixture with overlapping slot rows. -/
theorem buscar_dedup_exact_witness :
    (uniqueSlots (wSearchF [(), ()] 3)).Nodup ∧
    (∀ i : Int, i ∈ uniqueSlots (wSearchF [(), ()] 3) ↔
      i ∈ (wSearchF [(), ()] 3).flatten ∧ i ≠ -1) ∧
    List.Forall₂ (fun i c => pyGet wMetadata i = some c)
      (uniqueSlots (wSearchF [(), ()] 3)) [⟨"texto um", "b.txt"⟩, ⟨"texto zero", "a.txt"⟩] ∧
    (wMetadata.Nodup → (∀ i ∈ (wSearchF [(), ()] 3).flatten, 0 ≤ i) →
      ([⟨"texto um", "b.txt"⟩, ⟨"texto zero", "a.txt"⟩] : List Chunk).Nodup) :=
  buscar_dedup_exact wEmbedF wSearchF ["qa", "qb"] wMetadata 3 [(), ()]
    [⟨"texto um", "b.txt"⟩, ⟨"texto zero", "a.txt"⟩] (by decide) (by decide)

/-- C10: with one slot row per query and at most `k` slots per row, the
Retriever returns at most `n × k` Chunks for `n` queries, and every
returned Chunk is the metadata entry at one of the returned non-sentinel
slot indices. -/
theorem retriever_output_bounded {Vec : Type}
    (embedF : List String → Except String (List Vec))
    (searchF : List Vec → Nat → List (List Int))
    (queries : List String) (metadata : List Chunk) (k : Nat)
    (vecs : List Vec) (chunks : List Chunk)
    (hemb : embedF queries = .ok vecs)
    (hres : buscar_chunks_relevantes embedF searchF queries metadata k = .ok chunks)
    (hrows : (searchF vecs k).length = queries.length)
    (hrowlen : ∀ row ∈ searchF vecs k, row.length ≤ k) :
    chunks.length ≤ queries.length * k ∧
    ∀ c ∈ chunks, ∃ i : Int,
      i ∈ (searchF vecs k).flatten ∧ i ≠ -1 ∧ pyGet metadata i = some c := by
  have hres2 : resolveSlots metadata (uniqueSlots (searchF vecs k)) = .ok chunks := by
    unfold buscar_chunks_relevantes at hres
    rw [hemb] at hres
    exact hres
  have hf2 := resolveSlots_forall2 _ _ _ hres2
  constructor
  · have h1 : chunks.length = (uniqueSlots (searchF vecs k)).length := hf2.length_eq.symm
    have h2 : (uniqueSlots (searchF vecs k)).length ≤
        ((searchF vecs k).flatten.filter (fun idx => idx ≠ -1)).length :=
      (List.dedup_sublist _).length_le
    have h3 : ((searchF vecs k).flatten.filter (fun idx => idx ≠ -1)).length ≤
        (searchF vecs k).flatten.length := List.length_filter_le _ _
    have h4 : (searchF vecs k).flatten.length = ((searchF vecs k).map List.length).sum :=
      List.length_flatten _
    have h5 : ((searchF vecs k).map List.length).sum ≤
        ((searchF vecs k).map List.length).length * k := by
      have hb : ∀ x ∈ (searchF vecs k).map List.length, x ≤ k := by
        intro x hx
        obtain ⟨row, hrow, rfl⟩ := List.mem_map.mp hx
        exact hrowlen row hrow
      simpa [smul_eq_mul] using List.sum_le_card_nsmul ((searchF vecs k).map List.length) k hb
    have h6 : ((searchF vecs k).map List.length).length = queries.length := by
      rw [List.length_map, hrows]
    rw [h6] at h5
    omega
  · intro c hc
    obtain ⟨i, hi, hR⟩ := forall2_exists_left hf2 c hc
    have hi2 := List.mem_filter.mp (List.mem_dedup.mp hi)
    refine ⟨i, hi2.1, ?_, hR⟩
    simpa using hi2.2

/-- Witness for C10 on the two-query fixture: 2 queries, k = 3, at most 6
chunks. -/
theorem retriever_output_bounded_witness :
    ([⟨"texto um", "b.txt"⟩, ⟨"texto zero", "a.txt"⟩] : List Chunk).length ≤
      (["qa", "qb"] : List String).length * 3 ∧
    ∀ c ∈ ([⟨"texto um", "b.txt"⟩, ⟨"texto zero", "a.txt"⟩] : List Chunk), ∃ i : Int,
      i ∈ (wSearchF [(), ()] 3).flatten ∧ i ≠ -1 ∧ pyGet wMetadata i = some c :=
  retriever_output_bounded wEmbedF wSearchF ["qa", "qb"] wMetadata 3 [(), ()]
    [⟨"texto um", "b.txt"⟩, ⟨"texto zero", "a.txt"⟩] (by decide) (by decide)
    (by decide) (by decide)

/-- C2: `expand_query_with_gemini` always returns a list whose first
element is the input question verbatim, whatever the generative call
does. -/
theorem expand_query_head_eq_original
    (generateF : String → Except String String) (user_query : String) :
    (expand_query_with_gemini generateF user_query).head? = some user_query := by
  unfold expand_query_with_gemini
  cases generateF (expansion_prompt user_query) <;> rfl

/-- C3: if the generative call raises, the error is caught and the
expander returns exactly the singleton list with the original query. -/
theorem expand_query_error_singleton
    (generateF : String → Except String String) (user_query e : String)
    (h : generateF (expansion_prompt user_query) = .error e) :
    expand_query_with_gemini generateF user_query = [user_query] := by
  unfold expand_query_with_gemini
  rw [h]

/-- Witness for C3 with a transport-failure stub. -/
theorem expand_query_error_singleton_witness :
    expand_query_with_gemini (fun _ => .error "transporte") "O que é caridade?" =
      ["O que é caridade?"] :=
  expand_query_error_singleton (fun _ => .error "transporte") "O que é caridade?"
    "transporte" rfl

/-- C7: if the generative call inside the synthesizer raises, the error is
caught and the synthesizer returns the error-description string instead of
raising. -/
theorem synthesis_error_returns_message
    (generateF : String → Except String String) (query : String)
    (chunks : List Chunk) (e : String)
    (h : generateF (build_prompt query (contexto_formatado chunks)) = .error e) :
    gerar_resposta_com_busca generateF query chunks =
      "Ocorreu um erro ao gerar a resposta: " ++ e := by
  unfold gerar_resposta_com_busca
  rw [h]

/-- Witness for C7 with a quota-failure stub. -/
theorem synthesis_error_returns_message_witness :
    gerar_resposta_com_busca (fun _ => .error "cota excedida") "Pergunta?" wMetadata =
      "Ocorreu um erro ao gerar a resposta: " ++ "cota excedida" :=
  synthesis_error_returns_message (fun _ => .error "cota excedida") "Pergunta?"
    wMetadata "cota excedida" rfl

/-- C5: when the index search returns only sentinel slots for every query,
the Retriever returns the empty list (not an error), and the tab-1 handler
shows the explicit nothing-found warning — for every possible answer
generator, i.e. the synthesizer is never consulted. -/
theorem retriever_empty_no_synthesis {Vec : Type}
    (expandGenF : String → Except String String)
    (embedF : List String → Except String (List Vec))
    (searchF : List Vec → Nat → List (List Int))
    (metadata : List Chunk) (user_query : String) (vecs : List Vec)
    (hq : user_query ≠ "")
    (hemb : embedF (expand_query_with_gemini expandGenF user_query) = .ok vecs)
    (hall : ∀ row ∈ searchF vecs K_VALUE, ∀ i ∈ row, i = -1) :
    buscar_chunks_relevantes embedF searchF
      (expand_query_with_gemini expandGenF user_query) metadata K_VALUE = .ok [] ∧
    ∀ answerGenF : String → Except String String,
      tab1_search_handler expandGenF answerGenF embedF searchF metadata user_query =
        .ok (.warning "Não foram encontrados trechos relevantes para a sua pergunta.") := by
  have hflt : (searchF vecs K_VALUE).flatten.filter (fun idx => idx ≠ -1) = [] := by
    apply List.filter_eq_nil_iff.mpr
    intro a ha
    obtain ⟨row, hrow, hmem⟩ := List.mem_flatten.mp ha
    simp [hall row hrow a hmem]
  have hb : buscar_chunks_relevantes embedF searchF
      (expand_query_with_gemini expandGenF user_query) metadata K_VALUE = .ok [] := by
    unfold buscar_chunks_relevantes
    rw [hemb]
    show resolveSlots metadata (uniqueSlots (searchF vecs K_VALUE)) = .ok []
    unfold uniqueSlots
    rw [hflt, List.dedup_nil]
    rfl
  refine ⟨hb, ?_⟩
  intro answerGenF
  unfold tab1_search_handler
  rw [if_neg hq, hb]
  simp

/-- Witness for C5: a degraded expansion and an all-sentinel search give
the nothing-found warning. -/
theorem retriever_empty_no_synthesis_witness :
    buscar_chunks_relevantes wEmbedF wSearchFAllMiss
      (expand_query_with_gemini (fun _ => .error "falha") "Pergunta?") wMetadata K_VALUE =
      .ok [] ∧
    ∀ answerGenF : String → Except String String,
      tab1_search_handler (fun _ => .error "falha") answerGenF wEmbedF wSearchFAllMiss
        wMetadata "Pergunta?" =
        .ok (.warning "Não foram encontrados trechos relevantes para a sua pergunta.") :=
  retriever_empty_no_synthesis (fun _ => .error "falha") wEmbedF wSearchFAllMiss
    wMetadata "Pergunta?" [()] (by decide) (by decide) (by decide)

/-- C6: if the embedding call raises during retrieval, the error
propagates out of `buscar_chunks_relevantes` uncaught (no partial result),
and the tab-1 handler fails with that same error for every possible answer
generator — the synthesizer is never consulted. -/
theorem embed_failure_propagates {Vec : Type}
    (expandGenF : String → Except String String)
    (embedF : List String → Except String (List Vec))
    (searchF : List Vec → Nat → List (List Int))
    (metadata : List Chunk) (user_query e : String)
    (hq : user_query ≠ "")
    (hemb : embedF (expand_query_with_gemini expandGenF user_query) = .error e) :
    buscar_chunks_relevantes embedF searchF
      (expand_query_with_gemini expandGenF user_query) metadata K_VALUE =
      .error (.embedError e) ∧
    ∀ answerGenF : String → Except String String,
      tab1_search_handler expandGenF answerGenF embedF searchF metadata user_query =
        .error (.embedError e) := by
  have hb : buscar_chunks_relevantes embedF searchF
      (expand_query_with_gemini expandGenF user_query) metadata K_VALUE =
      .error (.embedError e) := by
    unfold buscar_chunks_relevantes
    rw [hemb]
  refine ⟨hb, ?_⟩
  intro answerGenF
  unfold tab1_search_handler
  rw [if_neg hq, hb]

/-- Witness for C6 with a transport-failure embedding stub. -/
theorem embed_failure_propagates_witness :
    buscar_chunks_relevantes wEmbedFail wSearchFOne
      (expand_query_with_gemini (fun _ => .error "falha") "Pergunta?") wMetadata K_VALUE =
      .error (.embedError "transporte") ∧
    ∀ answerGenF : String → Except String String,
      tab1_search_handler (fun _ => .error "falha") answerGenF
        wEmbedFail wSearchFOne wMetadata "Pergunta?" =
        .error (.embedError "transporte") :=
  embed_failure_propagates (fun _ => .error "falha") wEmbedFail
    wSearchFOne wMetadata "Pergunta?" "transporte" (by decide) rfl

/-! Lemmas relating the code's parsing (strip the whole text first) to the
spec's parsing (per-line trim and filter only). -/

theorem pySplitNlCore_ne_nil (l : List Char) : pySplitNlCore l ≠ [] := by
  cases l with
  | nil => simp [pySplitNlCore]
  | cons c cs =>
    simp only [pySplitNlCore]
    split
    · simp
    · split <;> simp

theorem pyStripCore_cons_ws (c : Char) (x : List Char) (hc : pyIsSpace c = true) :
    pyStripCore (c :: x) = pyStripCore x := by
  unfold pyStripCore
  rw [List.dropWhile_cons, if_pos hc]

theorem pyStripCore_snoc_ws (c : Char) (hc : pyIsSpace c = true) (x : List Char) :
    pyStripCore (x ++ [c]) = pyStripCore x := by
  unfold pyStripCore
  rw [List.dropWhile_append]
  by_cases he : (x.dropWhile pyIsSpace).isEmpty
  · rw [if_pos he]
    have hx : x.dropWhile pyIsSpace = [] := List.isEmpty_iff.mp he
    rw [hx]
    simp [List.dropWhile, hc]
  · rw [if_neg he]
    simp [List.reverse_append, List.dropWhile_cons, hc]

theorem parse_spec_cons_ws (c : Char) (cs : List Char) (hc : pyIsSpace c = true) :
    parse_expansion_spec_core (c :: cs) = parse_expansion_spec_core cs := by
  by_cases hnl : c = '\n'
  · subst hnl
    simp only [parse_expansion_spec_core, pySplitNlCore, if_pos rfl, List.map_cons,
      List.filter_cons]
    simp [pyStripCore]
  · obtain ⟨h, t, hht⟩ : ∃ h t, pySplitNlCore cs = h :: t := by
      cases hsp : pySplitNlCore cs with
      | nil => exact absurd hsp (pySplitNlCore_ne_nil cs)
      | cons h t => exact ⟨h, t, rfl⟩
    simp only [parse_expansion_spec_core, pySplitNlCore, if_neg hnl, hht, List.map_cons,
      List.filter_cons, pyStripCore_cons_ws c h hc]

theorem parse_spec_dropWhile (l : List Char) :
    parse_expansion_spec_core (l.dropWhile pyIsSpace) = parse_expansion_spec_core l := by
  induction l with
  | nil => rfl
  | cons c cs ih =>
    rw [List.dropWhile_cons]
    by_cases hc : pyIsSpace c = true
    · rw [if_pos hc, parse_spec_cons_ws c cs hc]
      exact ih
    · rw [if_neg hc]

theorem pySplitNlCore_cons_nl (x : List Char) :
    pySplitNlCore ('\n' :: x) = [] :: pySplitNlCore x := rfl

theorem pySplitNlCore_cons_ne (d : Char) (hd : ¬ d = '\n') (x : List Char)
    (h : List Char) (t : List (List Char)) (hx : pySplitNlCore x = h :: t) :
    pySplitNlCore (d :: x) = (d :: h) :: t := by
  simp only [pySplitNlCore, if_neg hd, hx]

theorem pySplitNlCore_snoc_nl (l : List Char) :
    pySplitNlCore (l ++ ['\n']) = pySplitNlCore l ++ [[]] := by
  induction l with
  | nil => rfl
  | cons c cs ih =>
    rw [List.cons_append]
    by_cases hnl : c = '\n'
    · subst hnl
      rw [pySplitNlCore_cons_nl, pySplitNlCore_cons_nl, ih, List.cons_append]
    · obtain ⟨h, t, hht⟩ : ∃ h t, pySplitNlCore cs = h :: t := by
        cases hsp : pySplitNlCore cs with
        | nil => exact absurd hsp (pySplitNlCore_ne_nil cs)
        | cons h t => exact ⟨h, t, rfl⟩
      have hht2 : pySplitNlCore (cs ++ ['\n']) = h :: (t ++ [[]]) := by
        rw [ih, hht, List.cons_append]
      rw [pySplitNlCore_cons_ne c hnl _ _ _ hht2, pySplitNlCore_cons_ne c hnl _ _ _ hht,
        List.cons_append]

theorem mapLast_cons {α : Type} (g : α → α) (x : α) (l : List α) (h : l ≠ []) :
    mapLast g (x :: l) = x :: mapLast g l := by
  cases l with
  | nil => exact absurd rfl h
  | cons y ys => rfl

theorem pySplitNlCore_snoc (c : Char) (hnl : c ≠ '\n') (l : List Char) :
    pySplitNlCore (l ++ [c]) = mapLast (fun x => x ++ [c]) (pySplitNlCore l) := by
  induction l with
  | nil =>
    rw [List.nil_append, pySplitNlCore_cons_ne c hnl [] [] [] rfl]
    simp [mapLast]
  | cons d ds ih =>
    rw [List.cons_append]
    obtain ⟨h, t, hht⟩ : ∃ h t, pySplitNlCore ds = h :: t := by
      cases hsp : pySplitNlCore ds with
      | nil => exact absurd hsp (pySplitNlCore_ne_nil ds)
      | cons h t => exact ⟨h, t, rfl⟩
    by_cases hd : d = '\n'
    · subst hd
      rw [pySplitNlCore_cons_nl, pySplitNlCore_cons_nl, ih,
        mapLast_cons _ [] _ (by rw [hht]; simp)]
    · cases t with
      | nil =>
        have h1 : pySplitNlCore (ds ++ [c]) = (h ++ [c]) :: [] := by
          rw [ih, hht]
          rfl
        rw [pySplitNlCore_cons_ne d hd _ _ _ h1, pySplitNlCore_cons_ne d hd _ _ _ hht]
        simp [mapLast, List.cons_append]
      | cons x xs =>
        have h1 : pySplitNlCore (ds ++ [c]) = h :: mapLast (fun y => y ++ [c]) (x :: xs) := by
          rw [ih, hht, mapLast_cons _ h (x :: xs) (by simp)]
        rw [pySplitNlCore_cons_ne d hd _ _ _ h1, pySplitNlCore_cons_ne d hd _ _ _ hht,
          mapLast_cons _ (d :: h) (x :: xs) (by simp)]

theorem mapLast_map_strip (c : Char) (hc : pyIsSpace c = true) :
    ∀ L : List (List Char),
      (mapLast (fun x => x ++ [c]) L).map pyStripCore = L.map pyStripCore := by
  intro L
  induction L with
  | nil => rfl
  | cons h t ih =>
    cases t with
    | nil => simp [mapLast, pyStripCore_snoc_ws c hc h]
    | cons x xs =>
      rw [mapLast_cons _ _ _ (by simp), List.map_cons, ih]
      simp

theorem parse_spec_snoc_ws (c : Char) (hc : pyIsSpace c = true) (l : List Char) :
    parse_expansion_spec_core (l ++ [c]) = parse_expansion_spec_core l := by
  by_cases hnl : c = '\n'
  · subst hnl
    unfold parse_expansion_spec_core
    rw [pySplitNlCore_snoc_nl]
    simp [List.map_append, List.filter_append, pyStripCore]
  · unfold parse_expansion_spec_core
    rw [pySplitNlCore_snoc c hnl, mapLast_map_strip c hc]

theorem parse_spec_stripRight (l : List Char) :
    parse_expansion_spec_core ((l.reverse.dropWhile pyIsSpace).reverse) =
      parse_expansion_spec_core l := by
  induction l using List.reverseRecOn with
  | nil => rfl
  | append_singleton l c ih =>
    rw [List.reverse_append]
    by_cases hc : pyIsSpace c = true
    · rw [show ([c].reverse ++ l.reverse) = c :: l.reverse by simp]
      rw [List.dropWhile_cons, if_pos hc, ih, parse_spec_snoc_ws c hc l]
    · rw [show ([c].reverse ++ l.reverse) = c :: l.reverse by simp]
      rw [List.dropWhile_cons, if_neg hc]
      simp

/-- The code's parse (which first strips the whole raw text) agrees with
the spec-worded parse (split, trim each line, drop empties) on every raw
text. -/
theorem parse_core_eq_spec (raw : List Char) :
    parse_expansion_core raw = parse_expansion_spec_core raw := by
  have h1 : parse_expansion_core raw =
      parse_expansion_spec_core (pyStripCore raw) := rfl
  rw [h1]
  unfold pyStripCore
  calc parse_expansion_spec_core (((raw.dropWhile pyIsSpace).reverse.dropWhile pyIsSpace).reverse)
      = parse_expansion_spec_core (raw.dropWhile pyIsSpace) :=
        parse_spec_stripRight (raw.dropWhile pyIsSpace)
    _ = parse_expansion_spec_core raw := parse_spec_dropWhile raw

/-- C4: on a successful generative call the expander keeps, after the
original query, exactly the lines of the model's raw text split on line
breaks, trimmed, with empty lines discarded — the spec-worded parse — and
enforces no count on them. -/
theorem expand_query_success_parses_lines
    (generateF : String → Except String String) (user_query raw : String)
    (h : generateF (expansion_prompt user_query) = .ok raw) :
    expand_query_with_gemini generateF user_query =
      user_query :: (parse_expansion_spec_core raw.data).map String.mk := by
  unfold expand_query_with_gemini
  rw [h]
  show user_query :: (parse_expansion_core raw.data).map String.mk = _
  rw [parse_core_eq_spec]

/-- Witness for C4: six non-empty lines (more than the configured 4) are
all kept, whitespace trimmed and blank lines dropped. -/
theorem expand_query_success_parses_lines_witness :
    expand_query_with_gemini
      (fun _ => .ok "  Linha um  \nLinha dois\n\n   \n Linha três\nLinha quatro\nLinha cinco\nLinha seis ")
      "Pergunta original?" =
      ["Pergunta original?", "Linha um", "Linha dois", "Linha três", "Linha quatro",
        "Linha cinco", "Linha seis"] := by
  have h := expand_query_success_parses_lines
    (fun _ => .ok "  Linha um  \nLinha dois\n\n   \n Linha três\nLinha quatro\nLinha cinco\nLinha seis ")
    "Pergunta original?"
    "  Linha um  \nLinha dois\n\n   \n Linha três\nLinha quatro\nLinha cinco\nLinha seis " rfl
  rw [h]
  decide

/-! Lemmas for factor containment in the synthesis prompt. -/

theorem containsPiece_prepend (x s p : String) (h : ContainsPiece s p) :
    ContainsPiece (x ++ s) p := by
  obtain ⟨a, b, rfl⟩ := h
  exact ⟨x ++ a, b, (String.append_assoc x a _).symm⟩

theorem containsPiece_extend (s y p : String) (h : ContainsPiece s p) :
    ContainsPiece (s ++ y) p := by
  obtain ⟨a, b, rfl⟩ := h
  refine ⟨a, b ++ y, ?_⟩
  rw [String.append_assoc, String.append_assoc]

theorem containsPiece_left (p b : String) : ContainsPiece (p ++ b) p :=
  ⟨"", b, (String.empty_append _).symm⟩

theorem chunkBlocks_contains (c : Chunk) :
    ∀ l : List Chunk, c ∈ l → ContainsPiece (chunkBlocks l) (chunk_block c) := by
  intro l
  induction l with
  | nil => intro h; cases h
  | cons d rest ih =>
    intro h
    rcases List.mem_cons.mp h with rfl | h2
    · exact containsPiece_left _ _
    · exact containsPiece_prepend (chunk_block d) _ _ (ih h2)

/-- C8: the grounding prompt built by the synthesizer contains the literal
user question, and — for every fragment supplied — that fragment's
`source_file` identifier followed by its verbatim text, delimited by the
`DOCUMENTO:`/`CONTEÚDO:` markers and the triple-quote fences. -/
theorem synth_prompt_grounding (q : String) (chunks : List Chunk) :
    (∃ a b : String, build_prompt q (contexto_formatado chunks) = a ++ (q ++ b)) ∧
    ∀ c ∈ chunks, ∃ a b : String,
      build_prompt q (contexto_formatado chunks) =
        a ++ ("\nDOCUMENTO: " ++ (c.source_file ++ ("\n" ++ ("CONTEÚDO:\n" ++
          (tripleQuote ++ (c.text ++ (tripleQuote ++ ("\n" ++ b)))))))) := by
  constructor
  · refine ⟨synthPromptIntro,
      synthPromptMid ++ (contexto_formatado chunks ++ synthPromptOutro), ?_⟩
    unfold build_prompt
    simp only [String.append_assoc]
  · intro c hc
    have h1 : ContainsPiece (contexto_formatado chunks) (chunk_block c) := by
      unfold contexto_formatado
      rw [String.append_assoc]
      exact containsPiece_prepend ctxHeader _ _
        (containsPiece_extend _ ctxFooter _ (chunkBlocks_contains c chunks hc))
    have h2 : ContainsPiece (build_prompt q (contexto_formatado chunks)) (chunk_block c) := by
      unfold build_prompt
      rw [String.append_assoc, String.append_assoc, String.append_assoc]
      exact containsPiece_prepend synthPromptIntro _ _
        (containsPiece_prepend q _ _
          (containsPiece_prepend synthPromptMid _ _
            (containsPiece_extend _ synthPromptOutro _ h1)))
    obtain ⟨a, b, heq⟩ := h2
    refine ⟨a, b, ?_⟩
    rw [heq]
    simp only [chunk_block, String.append_assoc]

/-- Witness for C8 on the two-chunk fixture, instantiated at the second
fragment. -/
theorem synth_prompt_grounding_witness :
    (∃ a b : String, build_prompt "Qual é o tema?" (contexto_formatado wMetadata) =
      a ++ ("Qual é o tema?" ++ b)) ∧
    (∃ a b : String, build_prompt "Qual é o tema?" (contexto_formatado wMetadata) =
      a ++ ("\nDOCUMENTO: " ++ ("b.txt" ++ ("\n" ++ ("CONTEÚDO:\n" ++
        (tripleQuote ++ ("texto um" ++ (tripleQuote ++ ("\n" ++ b))))))))) := by
  obtain ⟨h1, h2⟩ := synth_prompt_grounding "Qual é o tema?" wMetadata
  exact ⟨h1, h2 ⟨"texto um", "b.txt"⟩ (by decide)⟩

set_option maxRecDepth 4000 in
/-- Counterexample to C9 as stated: the synthesizer does not validate
citations, so a generative response citing an invented source is returned
verbatim — for fragments from sources a.txt and b.txt, the Answer can
carry the marker c.txt. -/
theorem citation_marker_invented_cex :
    wMetadata.map Chunk.source_file = ["a.txt", "b.txt"] ∧
    "c.txt" ∈ citationMarkers
      (gerar_resposta_com_busca (fun _ => .ok "Algo inventado [c.txt]") "Pergunta?" wMetadata) ∧
    "c.txt" ∉ wMetadata.map Chunk.source_file := by
  refine ⟨by decide, ?_, by decide⟩
  decide

/-- C9 amended: the synthesizer performs no citation validation — on a
successful generative call the Answer is the model's text stripped, so
whenever the (stubbed) generative service emits only markers naming
supplied `source_file` values, every marker in the Answer names a supplied
`source_file`. -/
theorem answer_markers_from_service
    (generateF : String → Except String String) (query : String)
    (chunks : List Chunk) (t : String)
    (hok : generateF (build_prompt query (contexto_formatado chunks)) = .ok t)
    (hm : ∀ m ∈ citationMarkers (pyStrip t), m ∈ chunks.map Chunk.source_file) :
    ∀ m ∈ citationMarkers (gerar_resposta_com_busca generateF query chunks),
      m ∈ chunks.map Chunk.source_file := by
  unfold gerar_resposta_com_busca
  rw [hok]
  exact hm

set_option maxRecDepth 8000 in
/-- Witness for the amended C9 with a compliant stubbed response,
instantiated at the marker `a.txt` of the produced Answer. -/
theorem answer_markers_from_service_witness :
    citationMarkers
      (gerar_resposta_com_busca (fun _ => .ok "Uma frase. [a.txt] Outra frase. [b.txt]")
        "Pergunta?" wMetadata) = ["a.txt", "b.txt"] ∧
    "a.txt" ∈ wMetadata.map Chunk.source_file :=
  ⟨by decide,
    answer_markers_from_service (fun _ => .ok "Uma frase. [a.txt] Outra frase. [b.txt]")
      "Pergunta?" wMetadata "Uma frase. [a.txt] Outra frase. [b.txt]" rfl (by decide)
      "a.txt" (by decide)⟩
